import Mathlib

/-!
Verification development for the lngvty-flask health-score service.

The Python source is shallowly embedded over exact rationals (`ℚ`):

* JSON payloads become the inductive `Lngvty.Json`; Python `dict.get`,
  iteration and `str()` become `pyGet`, `pyIter`, `pyStr`.  A Python
  exception (caught by the service's broad `try/except` blocks) is an
  `Option` failure (`none`).
* `HealthScoreService` (`src/services/health_score_service.py`) becomes
  `extract_answers`, `resolveQuestion`, `pillarScore`, `calculateScores`
  and `calculate`.  The lookup table (`answer-map.json`, loaded at
  startup and not part of the sources) is an explicit parameter of type
  `Lookups`, exactly the nested identifier → answer-text → sub-score
  mapping the code assumes.
* Python's `round(x, 1)` (round half to even) becomes `round1` via `rhe`.
* The orchestration service, JSON processing service, email service and
  webhook controller become `process_health_scores`, `process_json`,
  `send_email_with_pdf`, `process_webhook_and_email`, `process_webhook`,
  with the external collaborators (chart renderer, PDF renderer, mail
  provider, file system, file save) passed in as function parameters.
-/

namespace Lngvty

/-- JSON values.  Objects are association lists of string keys, preserving
the stored key order of Python dicts (which preserve insertion order). -/
inductive Json where
  | null : Json
  | bool : Bool → Json
  | num : ℚ → Json
  | str : String → Json
  | arr : List Json → Json
  | obj : List (String × Json) → Json

/-- A hashable Python dict key, as can appear as an answer-map key when a
payload's `field.ref` is not a string.  Lists and dicts are unhashable and
raise `TypeError` on use as a key; they therefore have no constructor here. -/
inductive PyKey where
  | null : PyKey
  | bool : Bool → PyKey
  | num : ℚ → PyKey
  | str : String → PyKey
deriving DecidableEq, Repr

/-- First-match association-list lookup.  On lists with unique keys this is
exactly Python `dict` lookup / `in`-membership. -/
def assocFind {κ α : Type} [DecidableEq κ] : List (κ × α) → κ → Option α
  | [], _ => none
  | (k, v) :: rest, key => if k = key then some v else assocFind rest key

/-- Python `value.get(key, default)`: looking up a key on a dict returns the
stored value or the default; calling `.get` on a non-dict raises
`AttributeError`, i.e. `none`. -/
def pyGet (j : Json) (key : String) (d : Json) : Option Json :=
  match j with
  | Json.obj kvs => some ((assocFind kvs key).getD d)
  | _ => none

/-- Python iteration `for x in v`: lists yield their elements, strings yield
their one-character substrings, dicts yield their keys; other values raise
`TypeError`, i.e. `none`. -/
def pyIter : Json → Option (List Json)
  | Json.arr l => some l
  | Json.str s => some (s.data.map (fun c => Json.str (String.mk [c])))
  | Json.obj kvs => some (kvs.map (fun kv => Json.str kv.1))
  | _ => none

/-- Python `str(v)` for a JSON value.  Only the string and integer cases are
reached by any claim; the rendering of non-integer numbers and containers is
abbreviated (Python would print a float / container repr). -/
def pyStr : Json → String
  | Json.str s => s
  | Json.num q => if q.den = 1 then toString q.num else toString q
  | Json.bool b => if b then "True" else "False"
  | Json.null => "None"
  | Json.arr _ => "<list>"
  | Json.obj _ => "<dict>"

/-- Using a JSON value as a dict key: hashable scalars are fine, lists and
dicts raise `TypeError` (`none`). -/
def pyKeyOf : Json → Option PyKey
  | Json.null => some PyKey.null
  | Json.bool b => some (PyKey.bool b)
  | Json.num q => some (PyKey.num q)
  | Json.str s => some (PyKey.str s)
  | Json.arr _ => none
  | Json.obj _ => none

/-- Python `j == s` for a string literal `s`: true only on equal strings. -/
def Json.isStr (j : Json) (s : String) : Bool :=
  match j with
  | Json.str t => t == s
  | _ => false

/-- The answer map built by `_extract_answers`: question identifier
(`field.ref`) to extracted answer value. -/
abbrev AnswerMap := List (PyKey × Json)

/-- The lookup table `self._lookups` loaded from `answer-map.json`:
question identifier → (answer text → numeric sub-score), both levels in
stored key order. -/
abbrev Lookups := List (String × List (String × ℚ))

/-- Python `d[k] = v` on a dict: overwrite in place if the key is present
(keeping its position), else append. -/
def pyDictSet : AnswerMap → PyKey → Json → AnswerMap
  | [], k, v => [(k, v)]
  | (k0, v0) :: rest, k, v =>
      if k0 = k then (k, v) :: rest else (k0, v0) :: pyDictSet rest k v

/-- One iteration of the `_extract_answers` loop (health_score_service.py
lines 95-108): read `field.ref`, the `type` tag, and derive the value;
`choice` → the choice's `label`, `text` → the text, `number` → `str(...)`
of the number, anything else → the empty string.  `none` is a raised
exception (non-dict `.get` target, or an unhashable key). -/
def extractEntry (answer : Json) : Option (PyKey × Json) := do
  let fieldJ ← pyGet answer "field" (Json.obj [])
  let refJ ← pyGet fieldJ "ref" (Json.str "")
  let tyJ ← pyGet answer "type" (Json.str "")
  let value ←
    if tyJ.isStr "choice" then do
      let cd ← pyGet answer "choice" (Json.obj [])
      pyGet cd "label" (Json.str "")
    else if tyJ.isStr "text" then
      pyGet answer "text" (Json.str "")
    else if tyJ.isStr "number" then do
      let n ← pyGet answer "number" (Json.num 0)
      pure (Json.str (pyStr n))
    else
      pure (Json.str "")
  let key ← pyKeyOf refJ
  pure (key, value)

/-- The `_extract_answers` loop over the answer list, threading the partial
`answer_map`; any exception aborts the whole loop. -/
def extractLoop : List Json → AnswerMap → Option AnswerMap
  | [], m => some m
  | a :: rest, m => do
    let kv ← extractEntry a
    extractLoop rest (pyDictSet m kv.1 kv.2)

/-- Embeds `HealthScoreService._extract_answers` (lines 89-113): navigate
`payload['form_response']['answers']` with defaulting `get`s, build the
answer map; the surrounding `try/except` turns any exception into the empty
map, discarding partial results. -/
def extract_answers (payload : Json) : AnswerMap :=
  (do
    let fr ← pyGet payload "form_response" (Json.obj [])
    let aj ← pyGet fr "answers" (Json.arr [])
    let lst ← pyIter aj
    extractLoop lst []).getD []

/-- Python `s.lower()` (the service only deals in ASCII vocabulary). -/
def lowerStr (s : String) : String := String.mk (s.data.map Char.toLower)

/-- Whether `needle` occurs as a contiguous sublist of the second argument;
Python's `needle in hay` on strings, on the underlying character lists. -/
def listContains (needle : List Char) : List Char → Bool
  | [] => needle.isEmpty
  | c :: rest => needle.isPrefixOf (c :: rest) || listContains needle rest

/-- Python `needle in hay` for strings. -/
def strHas (hay needle : String) : Bool := listContains needle.data hay.data

/-- The fuzzy-fallback scan of `_calculate_pillar_score` (lines 128-132):
`best_match` is the first key `k` in stored order with
`answer.lower() in k.lower() or k.lower() in answer.lower()`; the scan
returns that key together with its stored sub-score
(`self._lookups[uuid][best_match]`, the same entry since dict keys are
unique), or `none` when no key matches. -/
def fuzzyFind : List (String × ℚ) → String → Option (String × ℚ)
  | [], _ => none
  | (k, v) :: rest, a =>
      if strHas (lowerStr k) (lowerStr a) || strHas (lowerStr a) (lowerStr k) then
        some (k, v)
      else fuzzyFind rest a

/-- One question's contribution in `_calculate_pillar_score` (lines
119-137).  `some (some v)`: the question contributes sub-score `v`;
`some none`: the question is skipped (identifier absent from the answer map
or the lookup table — the short-circuit `uuid in answers and uuid in
self._lookups` — or no match found); `none`: a Python exception (the body
of `_calculate_pillar_score` has no `try/except`): a list- or dict-valued
answer is unhashable in the `answer in dict` test, and a non-string
hashable answer makes `answer.lower()` raise once the (non-empty) key loop
runs.  A fuzzy scan won by a key is guarded by `if best_match:` (line 134),
a Python *truthiness* test: when the winning key is the empty string the
guard is falsy and the question is skipped, not contributed. -/
def resolveQuestion (lookups : Lookups) (answers : AnswerMap) (uuid : String) :
    Option (Option ℚ) :=
  match assocFind answers (PyKey.str uuid) with
  | none => some none
  | some answer =>
      match assocFind lookups uuid with
      | none => some none
      | some table =>
          match answer with
          | Json.str a =>
              match assocFind table a with
              | some v => some (some v)
              | none =>
                  match fuzzyFind table a with
                  | some bm => if bm.1 = "" then some none else some (some bm.2)
                  | none => some none
          | Json.arr _ => none
          | Json.obj _ => none
          | _ => if table.isEmpty then some none else none

/-- The `for uuid in pillar_uuids` loop of `_calculate_pillar_score`,
collecting the resolved sub-scores in order; an exception aborts the call. -/
def collectScores (lookups : Lookups) (answers : AnswerMap) :
    List String → Option (List ℚ)
  | [] => some []
  | u :: rest =>
      match resolveQuestion lookups answers u, collectScores lookups answers rest with
      | some contrib, some restScores =>
          some (match contrib with
                | some v => v :: restScores
                | none => restScores)
      | _, _ => none

/-- Embeds `HealthScoreService._calculate_pillar_score` (lines 115-142): the mean
of the resolved sub-scores, or `0` when none resolved. -/
def pillarScore (lookups : Lookups) (answers : AnswerMap) (uuids : List String) :
    Option ℚ :=
  (collectScores lookups answers uuids).map (fun scores =>
    if scores.isEmpty then 0 else scores.sum / (scores.length : ℚ))

/-- Round half to even to an integer, mirroring Python's builtin `round`
(banker's rounding), over exact rationals. -/
def rhe (q : ℚ) : ℤ :=
  if q - ⌊q⌋ < 1 / 2 then ⌊q⌋
  else if 1 / 2 < q - ⌊q⌋ then ⌊q⌋ + 1
  else if ⌊q⌋ % 2 = 0 then ⌊q⌋ else ⌊q⌋ + 1

/-- Python `round(q, 1)`: round half to even at one decimal place. -/
def round1 (q : ℚ) : ℚ := (rhe (q * 10) : ℚ) / 10

/-- Embeds `HealthScoreService._normalize_score` (lines 85-87):
`round(raw_score * 20, 1)`, mapping the 0-5 scale to 0-100. -/
def normalizeScore (raw : ℚ) : ℚ := round1 (raw * 20)

/-- Pillar 1 (Muscles and Organ Fat): waist circumference, waist-hip ratio. -/
def pillar1 : List String :=
  ["aa24a4d2-b1f2-408b-9d4a-4be80ec7508d", "9c968d6d-e21b-448a-b8fb-30056f76ffff"]

/-- Pillar 2 (Cardiovascular Health): systolic and diastolic blood pressure. -/
def pillar2 : List String :=
  ["27181fef-736e-4bee-ad31-7d8e983d61b3", "ceb0b561-1793-43f1-9c76-11cc3964e48a"]

/-- Pillar 3 (Sleep): sleep duration, sleep quality. -/
def pillar3 : List String :=
  ["ccc73a31-d4f8-4856-8ebb-27647ff39a97", "50b96cb1-243e-454b-aa01-0e8990fc507d"]

/-- Pillar 4 (Cognitive Health): memory function score, noticed memory changes. -/
def pillar4 : List String :=
  ["c714f3fd-a4ff-449b-9946-7badbdc59e03", "15045302-e327-4069-bc9d-d0c0ab3cfaaa"]

/-- Pillar 5 (Metabolic Health and Nutrition): protein intake. -/
def pillar5 : List String := ["f9a247fc-e8d3-4bd8-b7e1-ae54f6766993"]

/-- Pillar 6 (Emotional Well-being): sense of purpose. -/
def pillar6 : List String := ["2c99731f-7ee5-4181-82b5-48a4d876df59"]

/-- Embeds `models/pillar_scores.py`: the six normalized pillar scores plus the
overall score. -/
structure PillarScores where
  muscles_and_visceral_fat : ℚ
  cardio_vascular : ℚ
  sleep : ℚ
  cognitive : ℚ
  metabolic : ℚ
  emotional : ℚ
  overall : ℚ
deriving DecidableEq, Repr

/-- The body of `HealthScoreService.calculate` (lines 54-83) after answer
extraction: six raw pillar scores, normalization, and the overall score
`round(mean of the six normalized scores, 1)`.  `none` is a propagated
exception from `_calculate_pillar_score`. -/
def calculateScores (lookups : Lookups) (answers : AnswerMap) : Option PillarScores :=
  match pillarScore lookups answers pillar1, pillarScore lookups answers pillar2,
        pillarScore lookups answers pillar3, pillarScore lookups answers pillar4,
        pillarScore lookups answers pillar5, pillarScore lookups answers pillar6 with
  | some r1, some r2, some r3, some r4, some r5, some r6 =>
      let s1 := normalizeScore r1
      let s2 := normalizeScore r2
      let s3 := normalizeScore r3
      let s4 := normalizeScore r4
      let s5 := normalizeScore r5
      let s6 := normalizeScore r6
      some ⟨s1, s2, s3, s4, s5, s6, round1 ((s1 + s2 + s3 + s4 + s5 + s6) / 6)⟩
  | _, _, _, _, _, _ => none

/-- Embeds `HealthScoreService.calculate` (lines 49-83): extract the answers, then
score them. -/
def calculate (lookups : Lookups) (payload : Json) : Option PillarScores :=
  calculateScores lookups (extract_answers payload)

/-- The name-search loop of `JsonProcessingService._extract_user_name`
(json_processing_service.py lines 76-81): return the `text` of the first
answer whose `field.ref` equals `name_field_ref`, defaulting to `User`;
`none` is a raised exception (caught by the caller).  A non-string `text`
value is abbreviated by `pyStr` (Python would return the raw object; no
claim depends on that case). -/
def userNameLoop : List Json → Option String
  | [] => some "User"
  | a :: rest =>
      match pyGet a "field" (Json.obj []) with
      | none => none
      | some f =>
          match pyGet f "ref" (Json.str "") with
          | none => none
          | some r =>
              if r.isStr "name_field_ref" then
                match pyGet a "text" (Json.str "User") with
                | none => none
                | some t => some (pyStr t)
              else userNameLoop rest

/-- Embeds `JsonProcessingService._extract_user_name` (lines 60-83): scan the
answer list for the designated name field; the `try/except` returns
`"User"` on any exception. -/
def extract_user_name (payload : Json) : String :=
  (do
    let fr ← pyGet payload "form_response" (Json.obj [])
    let aj ← pyGet fr "answers" (Json.arr [])
    let lst ← pyIter aj
    userNameLoop lst).getD "User"

/-- The dictionary returned by
`HealthScoreOrchestrationService.process_health_scores` on success:
chart path, PDF report path, user name, pillar scores. -/
structure OrchResult where
  chart_path : String
  pdf_report_path : String
  user_name : String
  pillar_scores : PillarScores
deriving DecidableEq, Repr

/-- Embeds `HealthScoreOrchestrationService.process_health_scores`
(health_score_orchestration_service.py lines 18-45), with the chart and PDF
renderers passed as functions whose `Except.error` is a raised exception:
generate the chart, then the PDF; any exception is caught and turns the
result into `None`. -/
def process_health_scores (chart : PillarScores → Except String String)
    (pdf : PillarScores → String → String → Except String String)
    (pillar_scores : PillarScores) (user_name : String) : Option OrchResult :=
  match chart pillar_scores with
  | Except.error _ => none
  | Except.ok chart_path =>
      match pdf pillar_scores chart_path user_name with
      | Except.error _ => none
      | Except.ok pdf_path => some ⟨chart_path, pdf_path, user_name, pillar_scores⟩

/-- The dictionary returned by `JsonProcessingService.process_json`:
success flag, message, and the orchestration data (present only on
success, so `data = none` means no chart or PDF path is reported). -/
structure ProcResult where
  success : Bool
  message : String
  data : Option OrchResult
deriving DecidableEq, Repr

/-- Embeds `JsonProcessingService.process_json` (json_processing_service.py lines
18-58).  The `json.loads` step is the `Except String Json` argument
(`Except.error` = a parse exception, caught by the broad `except`); the
caller in the webhook controller always passes `json.dumps(payload)`, for
which parsing is the identity on `payload`.  A `none` from `calculate` is a
propagated scorer exception, also caught by the broad `except`. -/
def process_json (chart : PillarScores → Except String String)
    (pdf : PillarScores → String → String → Except String String)
    (lookups : Lookups) (parsed : Except String Json) : ProcResult :=
  match parsed with
  | Except.error e => ⟨false, "Error processing JSON: " ++ e, none⟩
  | Except.ok payload =>
      let user_name := extract_user_name payload
      match calculate lookups payload with
      | none => ⟨false, "Error processing JSON: scorer exception", none⟩
      | some pillar_scores =>
          match process_health_scores chart pdf pillar_scores user_name with
          | some result_data => ⟨true, "JSON processed successfully", some result_data⟩
          | none => ⟨false, "Failed to process health scores", none⟩

/-- The dictionary returned by `EmailService.send_email_with_pdf`:
success flag plus a diagnostic string. -/
structure EmailResult where
  success : Bool
  info : String
deriving DecidableEq, Repr

/-- Embeds `EmailService.send_email_with_pdf` (email_service.py lines 101-210),
with the environment explicit: `api_key` is the configured SendGrid key,
`fs` is `os.path.exists`, and `sg` is the SendGrid provider call (its
`Except.error` is a raised exception, caught by the broad `except`).
The code checks the API key first, then the PDF's existence, and only then
builds the message and invokes the provider. -/
def send_email_with_pdf (api_key : Option String) (fs : String → Bool)
    (sg : String → Except String Nat)
    (to_email subject body pdf_path : String) : EmailResult :=
  match api_key with
  | none => ⟨false, "SendGrid API key not configured"⟩
  | some _ =>
      if fs pdf_path then
        match sg to_email with
        | Except.ok _ => ⟨true, "Email sent successfully: " ++ subject ++ " " ++ body⟩
        | Except.error _ => ⟨false, "Failed to send email"⟩
      else ⟨false, "PDF file not found: " ++ pdf_path⟩

/-- The body of the email-search loop of
`WebhookController._extract_email_from_payload` (webhook_controller.py
lines 35-39), with the condition's short-circuit `and` made explicit: a
non-dict answer element makes `answer.get('type')` raise, and a present
non-dict `field` value makes `answer['field'].get('ref')` raise — either
exception is caught at lines 41-43 and yields `None`, aborting the scan
(here `none`); an answer failing one of the three tests is skipped and the
scan continues.  A missing `email` key on the matched answer is Python
`None` (the caller treats it the same as no match); a found non-string
email value is not modelled (no claim depends on it). -/
def emailLoop : List Json → Option String
  | [] => none
  | a :: rest =>
      match a with
      | Json.obj kvs =>
          if ((assocFind kvs "type").getD Json.null).isStr "email" then
            match assocFind kvs "field" with
            | none => emailLoop rest
            | some (Json.obj fkvs) =>
                if ((assocFind fkvs "ref").getD Json.null).isStr
                    "39f116ed-5403-407a-b506-c9625e9e6b2a" then
                  match assocFind kvs "email" with
                  | some (Json.str s) => some s
                  | _ => none
                else emailLoop rest
            | some _ => none
          else emailLoop rest
      | _ => none

/-- Embeds `WebhookController._extract_email_from_payload` (lines 21-43): check
the `form_response`/`answers` structure, scan for the designated email
answer; exceptions and missing structure yield `None`. -/
def extract_email_from_payload (payload : Json) : Option String :=
  match payload with
  | Json.obj kvs =>
      match assocFind kvs "form_response" with
      | some (Json.obj frkvs) =>
          match assocFind frkvs "answers" with
          | some (Json.arr lst) => emailLoop lst
          | _ => none
      | _ => none
  | _ => none

/-- The response of `WebhookController.process_webhook_and_email`: the
top-level success flag, an HTTP-ish status (200 for the plain dict, 400/500
for the error tuples), and the embedded email and processing results
(present only where the code includes those keys). -/
structure WebhookEmailResponse where
  success : Bool
  status : Nat
  emailResult : Option EmailResult
  processingResult : Option ProcResult
deriving DecidableEq, Repr

/-- The email subject built at webhook_controller.py line 172. -/
def emailSubject (date : String) : String := "Your Health Score Report - " ++ date

/-- The email body built at webhook_controller.py line 173. -/
def emailBody (user_name : String) : String :=
  "Hello " ++ user_name ++
    ",\n\nThank you for using our Health Score service. Your health score report is attached.\n\nBest regards,\nThe Health Score Team"

/-- Embeds `WebhookController.process_webhook_and_email` (webhook_controller.py
lines 129-202).  `save` is the file write of the payload (an `Except.error`
is a raised exception, caught by the outer `except`); `date` stands for the
formatted current UTC date; the falsy Python values `None` and the empty
string for a recipient are both modelled as the empty string.  When
processing succeeded with data, a recipient is found and the PDF path is
truthy and exists, the email service is invoked and its success flag
becomes the response's top-level success flag. -/
def process_webhook_and_email (save : Except String Unit)
    (api_key : Option String) (fs : String → Bool) (sg : String → Except String Nat)
    (chart : PillarScores → Except String String)
    (pdf : PillarScores → String → String → Except String String)
    (lookups : Lookups) (date : String) (payload : Json)
    (to_email : Option String) : WebhookEmailResponse :=
  match save with
  | Except.error _ => ⟨false, 500, none, none⟩
  | Except.ok _ =>
      let pr := process_json chart pdf lookups (Except.ok payload)
      if pr.success then
        match pr.data with
        | some rd =>
            let r1 := to_email.getD ""
            let r2 := if r1 = "" then (extract_email_from_payload payload).getD "" else r1
            if r2 = "" then ⟨false, 400, none, none⟩
            else if rd.pdf_report_path ≠ "" ∧ fs rd.pdf_report_path then
              let er := send_email_with_pdf api_key fs sg r2 (emailSubject date)
                (emailBody rd.user_name) rd.pdf_report_path
              ⟨er.success, 200, some er, some pr⟩
            else ⟨false, 500, none, some pr⟩
        | none => ⟨false, 500, none, some pr⟩
      else ⟨false, 500, none, some pr⟩

/-- The response of `WebhookController.process_webhook`: top-level success
flag, status, saved file name and embedded processing result. -/
structure WebhookResponse where
  success : Bool
  status : Nat
  fileName : Option String
  processingResult : Option ProcResult
deriving DecidableEq, Repr

/-- Embeds `WebhookController.process_webhook` (webhook_controller.py lines
45-80): save the payload, process it, and return `success: True` with the
processing result embedded; only a raised exception (e.g. a failed file
write, modelled by `save`) produces the 500 failure response. -/
def process_webhook (save : Except String Unit)
    (chart : PillarScores → Except String String)
    (pdf : PillarScores → String → String → Except String String)
    (lookups : Lookups) (filename : String) (payload : Json) : WebhookResponse :=
  match save with
  | Except.error _ => ⟨false, 500, none, none⟩
  | Except.ok _ =>
      ⟨true, 200, some filename, some (process_json chart pdf lookups (Except.ok payload))⟩

/-! Supporting lemmas about the embedded scorer. -/

/-- A successful association-list lookup returns a stored pair. -/
theorem assocFind_mem {κ α : Type} [DecidableEq κ] {l : List (κ × α)} {k : κ} {v : α}
    (h : assocFind l k = some v) : (k, v) ∈ l := by
  induction l with
  | nil => simp [assocFind] at h
  | cons kv rest ih =>
    obtain ⟨k0, v0⟩ := kv
    by_cases hk : k0 = k
    · subst hk
      simp [assocFind] at h
      subst h
      exact List.mem_cons_self _ _
    · simp [assocFind, hk] at h
      exact List.mem_cons_of_mem _ (ih h)

/-- A successful fuzzy scan returns a stored entry of the table. -/
theorem fuzzyFind_mem {t : List (String × ℚ)} {a : String} {bm : String × ℚ}
    (h : fuzzyFind t a = some bm) : bm ∈ t := by
  induction t with
  | nil => simp [fuzzyFind] at h
  | cons kv rest ih =>
    obtain ⟨k0, v0⟩ := kv
    by_cases hc : (strHas (lowerStr k0) (lowerStr a) || strHas (lowerStr a) (lowerStr k0)) = true
    · simp [fuzzyFind, hc] at h
      simp [← h]
    · simp [fuzzyFind, hc] at h
      exact List.mem_cons_of_mem _ (ih h)

/-- A question absent from the answer map is skipped. -/
theorem resolveQuestion_no_answer {lookups : Lookups} {answers : AnswerMap} {u : String}
    (h : assocFind answers (PyKey.str u) = none) :
    resolveQuestion lookups answers u = some none := by
  unfold resolveQuestion
  rw [h]

/-- A question absent from the lookup table is skipped. -/
theorem resolveQuestion_no_table {lookups : Lookups} {answers : AnswerMap} {u : String}
    {answer : Json} (ha : assocFind answers (PyKey.str u) = some answer)
    (h : assocFind lookups u = none) :
    resolveQuestion lookups answers u = some none := by
  unfold resolveQuestion
  rw [ha, h]

/-- Unfolding `resolveQuestion` on a string answer present in both maps:
exact match first, then the truthiness-guarded fuzzy fallback. -/
theorem resolveQuestion_str {lookups : Lookups} {answers : AnswerMap} {u a : String}
    {table : List (String × ℚ)}
    (ha : assocFind answers (PyKey.str u) = some (Json.str a))
    (ht : assocFind lookups u = some table) :
    resolveQuestion lookups answers u =
      match assocFind table a with
      | some v => some (some v)
      | none =>
          match fuzzyFind table a with
          | some bm => if bm.1 = "" then some none else some (some bm.2)
          | none => some none := by
  unfold resolveQuestion
  rw [ha, ht]

/-- Every contributed sub-score comes from some table stored in the lookup
parameter. -/
theorem resolveQuestion_sub {lookups : Lookups} {answers : AnswerMap} {u : String} {v : ℚ}
    (h : resolveQuestion lookups answers u = some (some v)) :
    ∃ t, assocFind lookups u = some t ∧ ∃ k, (k, v) ∈ t := by
  cases h1 : assocFind answers (PyKey.str u) with
  | none => rw [resolveQuestion_no_answer h1] at h; simp at h
  | some answer =>
    cases h2 : assocFind lookups u with
    | none => rw [resolveQuestion_no_table h1 h2] at h; simp at h
    | some table =>
      refine ⟨table, rfl, ?_⟩
      cases answer with
      | str a =>
        rw [resolveQuestion_str h1 h2] at h
        cases h3 : assocFind table a with
        | some w =>
          rw [h3] at h
          simp at h
          subst h
          exact ⟨a, assocFind_mem h3⟩
        | none =>
          rw [h3] at h
          cases h4 : fuzzyFind table a with
          | none => rw [h4] at h; simp at h
          | some bm =>
            rw [h4] at h
            have h' : (if bm.1 = "" then (some none : Option (Option ℚ))
                else some (some bm.2)) = some (some v) := h
            by_cases hb : bm.1 = ""
            · rw [if_pos hb] at h'
              simp at h'
            · rw [if_neg hb] at h'
              simp at h'
              subst h'
              exact ⟨bm.1, fuzzyFind_mem h4⟩
      | arr l =>
        unfold resolveQuestion at h
        rw [h1, h2] at h
        simp at h
      | obj kvs =>
        unfold resolveQuestion at h
        rw [h1, h2] at h
        simp at h
      | null =>
        unfold resolveQuestion at h
        rw [h1, h2] at h
        have h' : (if table.isEmpty then (some none : Option (Option ℚ)) else none)
            = some (some v) := h
        split at h' <;> simp at h'
      | bool b =>
        unfold resolveQuestion at h
        rw [h1, h2] at h
        have h' : (if table.isEmpty then (some none : Option (Option ℚ)) else none)
            = some (some v) := h
        split at h' <;> simp at h'
      | num q =>
        unfold resolveQuestion at h
        rw [h1, h2] at h
        have h' : (if table.isEmpty then (some none : Option (Option ℚ)) else none)
            = some (some v) := h
        split at h' <;> simp at h'

/-- Every collected sub-score comes from some table stored in the lookup
parameter. -/
theorem collectScores_mem {lookups : Lookups} {answers : AnswerMap} {us : List String}
    {l : List ℚ} (h : collectScores lookups answers us = some l) {x : ℚ} (hx : x ∈ l) :
    ∃ t, (∃ u, assocFind lookups u = some t) ∧ ∃ k, (k, x) ∈ t := by
  induction us generalizing l with
  | nil =>
    simp [collectScores] at h
    subst h
    simp at hx
  | cons u rest ih =>
    unfold collectScores at h
    cases h1 : resolveQuestion lookups answers u with
    | none => rw [h1] at h; simp at h
    | some contrib =>
      rw [h1] at h
      cases h2 : collectScores lookups answers rest with
      | none => rw [h2] at h; simp at h
      | some restScores =>
        rw [h2] at h
        simp at h
        subst h
        cases contrib with
        | none => exact ih h2 hx
        | some v =>
          rcases List.mem_cons.mp hx with hv | hv
          · subst hv
            obtain ⟨t, ht, k, hk⟩ := resolveQuestion_sub h1
            exact ⟨t, ⟨u, ht⟩, k, hk⟩
          · exact ih h2 hv

/-- A list of rationals each in `[0, B]` has a sum in `[0, B*length]`. -/
theorem sum_bounds {B : ℚ} {l : List ℚ}
    (h : ∀ x ∈ l, 0 ≤ x ∧ x ≤ B) : 0 ≤ l.sum ∧ l.sum ≤ B * l.length := by
  induction l with
  | nil => simp
  | cons a t ih =>
    obtain ⟨ha0, haB⟩ := h a (List.mem_cons_self _ _)
    obtain ⟨ht0, htB⟩ := ih (fun x hx => h x (List.mem_cons_of_mem _ hx))
    constructor
    · simp only [List.sum_cons]
      linarith
    · simp only [List.sum_cons, List.length_cons]
      push_cast
      linarith

/-- The mean-or-zero computed by `_calculate_pillar_score` stays in the
range of its inputs. -/
theorem mean_bounds (B : ℚ) (hB : 0 ≤ B) {l : List ℚ}
    (h : ∀ x ∈ l, 0 ≤ x ∧ x ≤ B) :
    0 ≤ (if l.isEmpty then 0 else l.sum / (l.length : ℚ)) ∧
      (if l.isEmpty then 0 else l.sum / (l.length : ℚ)) ≤ B := by
  cases l with
  | nil => simp [hB]
  | cons a t =>
    rw [if_neg (by simp)]
    obtain ⟨h0, hs⟩ := sum_bounds h
    have hlen : (0:ℚ) < ((a :: t).length : ℚ) := by
      exact_mod_cast (a :: t).length.pos_of_ne_zero (by simp)
    constructor
    · positivity
    · rw [div_le_iff₀ hlen]
      linarith

/-- With all lookup sub-scores in `[0, 5]`, every raw pillar score is in
`[0, 5]`. -/
theorem pillarScore_bounds {lookups : Lookups} {answers : AnswerMap} {us : List String}
    (hb : ∀ u t, (u, t) ∈ lookups → ∀ k v, (k, v) ∈ t → 0 ≤ v ∧ v ≤ 5)
    {r : ℚ} (h : pillarScore lookups answers us = some r) : 0 ≤ r ∧ r ≤ 5 := by
  unfold pillarScore at h
  cases hc : collectScores lookups answers us with
  | none => rw [hc] at h; simp at h
  | some l =>
    rw [hc] at h
    simp at h
    subst h
    have hm := mean_bounds 5 (by norm_num) (fun x hx => by
      obtain ⟨t, ⟨u, hu⟩, k, hk⟩ := collectScores_mem hc hx
      exact hb u t (assocFind_mem hu) k x hk)
    simpa using hm

/-- Round half to even never goes below a nonnegative input's floor. -/
theorem rhe_nonneg {q : ℚ} (h : 0 ≤ q) : 0 ≤ rhe q := by
  have h0 : (0:ℤ) ≤ ⌊q⌋ := by
    rw [Int.le_floor]
    exact_mod_cast h
  unfold rhe
  split_ifs <;> omega

/-- Round half to even never exceeds an integer upper bound of its input. -/
theorem rhe_le {q : ℚ} {m : ℤ} (h : q ≤ (m:ℚ)) : rhe q ≤ m := by
  have hf : ⌊q⌋ ≤ m := by
    have := Int.floor_mono h
    simpa using this
  have hq : (⌊q⌋:ℚ) ≤ q := Int.floor_le q
  unfold rhe
  split_ifs with h1 h2 h3
  · exact hf
  · rcases lt_or_eq_of_le hf with hlt | heq
    · omega
    · exfalso
      rw [heq] at hq h1
      linarith
  · exact hf
  · rcases lt_or_eq_of_le hf with hlt | heq
    · omega
    · exfalso
      rw [heq] at hq h1
      linarith

/-- Rounding to one decimal preserves nonnegativity. -/
theorem round1_nonneg {q : ℚ} (h : 0 ≤ q) : 0 ≤ round1 q := by
  unfold round1
  have h1 : (0:ℤ) ≤ rhe (q * 10) := rhe_nonneg (by linarith)
  have h2 : (0:ℚ) ≤ (rhe (q * 10) : ℚ) := by exact_mod_cast h1
  linarith

/-- Rounding to one decimal preserves an integer upper bound. -/
theorem round1_le {q : ℚ} {m : ℤ} (h : q ≤ (m:ℚ)) : round1 q ≤ (m:ℚ) := by
  unfold round1
  have h1 : rhe (q * 10) ≤ 10 * m := rhe_le (by push_cast; linarith)
  have h2 : (rhe (q * 10) : ℚ) ≤ ((10 * m : ℤ) : ℚ) := by exact_mod_cast h1
  push_cast at h2
  linarith

/-- Normalization maps a raw score in `[0, 5]` into `[0, 100]`. -/
theorem normalizeScore_bounds {r : ℚ} (h0 : 0 ≤ r) (h5 : r ≤ 5) :
    0 ≤ normalizeScore r ∧ normalizeScore r ≤ 100 := by
  unfold normalizeScore
  constructor
  · exact round1_nonneg (by linarith)
  · have h1 : round1 (r * 20) ≤ ((100 : ℤ) : ℚ) := round1_le (by push_cast; linarith)
    push_cast at h1
    linarith

/-- The fuzzy scan is the first entry, in stored order, whose key satisfies
the two-sided lowercase substring test. -/
theorem fuzzyFind_eq_findFirst (t : List (String × ℚ)) (a : String) :
    fuzzyFind t a = t.find? (fun kv =>
      strHas (lowerStr a) (lowerStr kv.1) || strHas (lowerStr kv.1) (lowerStr a)) := by
  induction t with
  | nil => rfl
  | cons kv rest ih =>
    obtain ⟨k, v⟩ := kv
    by_cases hc : (strHas (lowerStr k) (lowerStr a) || strHas (lowerStr a) (lowerStr k)) = true
    · have hc' : (strHas (lowerStr a) (lowerStr k) || strHas (lowerStr k) (lowerStr a)) = true := by
        rw [Bool.or_comm] at hc
        exact hc
      simp [fuzzyFind, List.find?, hc, hc']
    · have hc' : (strHas (lowerStr a) (lowerStr k) || strHas (lowerStr k) (lowerStr a)) = false := by
        rw [Bool.or_comm] at hc
        simpa using hc
      simp [fuzzyFind, List.find?, hc, hc', ih]

/-- The empty character list occurs in every character list. -/
theorem listContains_nil (l : List Char) : listContains [] l = true := by
  cases l <;> simp [listContains, List.isPrefixOf]

/-- The empty string is a Python substring of every string. -/
theorem strHas_empty (hay : String) : strHas hay "" = true := by
  unfold strHas
  exact listContains_nil _

/-- Unfolding `process_json` on successfully parsed JSON. -/
theorem process_json_ok (chart : PillarScores → Except String String)
    (pdf : PillarScores → String → String → Except String String)
    (lookups : Lookups) (payload : Json) :
    process_json chart pdf lookups (Except.ok payload) =
      match calculate lookups payload with
      | none => ⟨false, "Error processing JSON: scorer exception", none⟩
      | some pillar_scores =>
          match process_health_scores chart pdf pillar_scores (extract_user_name payload) with
          | some result_data => ⟨true, "JSON processed successfully", some result_data⟩
          | none => ⟨false, "Failed to process health scores", none⟩ := rfl

/-! Claim theorems. -/

/-- C1: for every answer map and every lookup table whose sub-score values
all lie in `[0, 5]`, each of the six pillar scores returned by
`HealthScoreService.calculate` (here its post-extraction body
`calculateScores`) lies in `[0, 100]`, and the returned overall score
equals the arithmetic mean of the six normalized pillar scores rounded to
one decimal, hence also lies in `[0, 100]`. -/
theorem c1_scores_bounded (lookups : Lookups) (answers : AnswerMap)
    (hb : ∀ u t, (u, t) ∈ lookups → ∀ k v, (k, v) ∈ t → 0 ≤ v ∧ v ≤ 5)
    (ps : PillarScores) (hps : calculateScores lookups answers = some ps) :
    (0 ≤ ps.muscles_and_visceral_fat ∧ ps.muscles_and_visceral_fat ≤ 100) ∧
    (0 ≤ ps.cardio_vascular ∧ ps.cardio_vascular ≤ 100) ∧
    (0 ≤ ps.sleep ∧ ps.sleep ≤ 100) ∧
    (0 ≤ ps.cognitive ∧ ps.cognitive ≤ 100) ∧
    (0 ≤ ps.metabolic ∧ ps.metabolic ≤ 100) ∧
    (0 ≤ ps.emotional ∧ ps.emotional ≤ 100) ∧
    ps.overall = round1 ((ps.muscles_and_visceral_fat + ps.cardio_vascular + ps.sleep +
      ps.cognitive + ps.metabolic + ps.emotional) / 6) ∧
    0 ≤ ps.overall ∧ ps.overall ≤ 100 := by
  unfold calculateScores at hps
  split at hps
  case _ r1 r2 r3 r4 r5 r6 h1 h2 h3 h4 h5 h6 =>
    obtain ⟨b1l, b1u⟩ := normalizeScore_bounds (pillarScore_bounds hb h1).1 (pillarScore_bounds hb h1).2
    obtain ⟨b2l, b2u⟩ := normalizeScore_bounds (pillarScore_bounds hb h2).1 (pillarScore_bounds hb h2).2
    obtain ⟨b3l, b3u⟩ := normalizeScore_bounds (pillarScore_bounds hb h3).1 (pillarScore_bounds hb h3).2
    obtain ⟨b4l, b4u⟩ := normalizeScore_bounds (pillarScore_bounds hb h4).1 (pillarScore_bounds hb h4).2
    obtain ⟨b5l, b5u⟩ := normalizeScore_bounds (pillarScore_bounds hb h5).1 (pillarScore_bounds hb h5).2
    obtain ⟨b6l, b6u⟩ := normalizeScore_bounds (pillarScore_bounds hb h6).1 (pillarScore_bounds hb h6).2
    cases hps
    refine ⟨⟨b1l, b1u⟩, ⟨b2l, b2u⟩, ⟨b3l, b3u⟩, ⟨b4l, b4u⟩, ⟨b5l, b5u⟩, ⟨b6l, b6u⟩, rfl, ?_, ?_⟩
    · exact round1_nonneg (by positivity)
    · have h100 : (normalizeScore r1 + normalizeScore r2 + normalizeScore r3 +
          normalizeScore r4 + normalizeScore r5 + normalizeScore r6) / 6 ≤ ((100:ℤ):ℚ) := by
        push_cast
        linarith
      have hfin := round1_le h100
      push_cast at hfin
      exact hfin
  case _ => simp at hps

/-- C1 witness: the bounds theorem applied to a lookup table with one
sub-score `5` for question `q1` and the empty answer map, whose scores all
evaluate to `0`. -/
theorem c1_scores_bounded_witness :
    (0 ≤ (0:ℚ) ∧ (0:ℚ) ≤ 100) ∧ (0 ≤ (0:ℚ) ∧ (0:ℚ) ≤ 100) ∧ (0 ≤ (0:ℚ) ∧ (0:ℚ) ≤ 100) ∧
    (0 ≤ (0:ℚ) ∧ (0:ℚ) ≤ 100) ∧ (0 ≤ (0:ℚ) ∧ (0:ℚ) ≤ 100) ∧ (0 ≤ (0:ℚ) ∧ (0:ℚ) ≤ 100) ∧
    (0:ℚ) = round1 ((0 + 0 + 0 + 0 + 0 + 0) / 6) ∧ 0 ≤ (0:ℚ) ∧ (0:ℚ) ≤ 100 :=
  c1_scores_bounded [("q1", [("yes", 5)])] []
    (by
      intro u t hut k v hkv
      simp at hut
      obtain ⟨hu, ht⟩ := hut
      subst ht
      simp at hkv
      obtain ⟨hk, hv⟩ := hkv
      subst hv
      norm_num)
    ⟨0, 0, 0, 0, 0, 0, 0⟩
    (by simp [calculateScores, pillarScore, collectScores, resolveQuestion,
      pillar1, pillar2, pillar3, pillar4, pillar5, pillar6, assocFind,
      normalizeScore, round1, rhe])

/-- C2 counterexample: for stored keys `["zzz", ""]` with sub-scores `1`
and `5` and answer `"xyz"`, the first key passing the two-sided lowercase
substring test is `""` (the empty string is a substring of everything), so
the claim as stated predicts a contribution of `5`; the code's
`if best_match:` truthiness guard (health_score_service.py line 134) is
falsy on the empty string, and the question is skipped with no
contribution instead. -/
theorem c2_counterexample :
    [("zzz", (1:ℚ)), ("", 5)].find? (fun kv =>
      strHas (lowerStr "xyz") (lowerStr kv.1) || strHas (lowerStr kv.1) (lowerStr "xyz"))
      = some ("", 5) ∧
    resolveQuestion [("u", [("zzz", 1), ("", 5)])] [(PyKey.str "u", Json.str "xyz")] "u"
      = some none ∧
    (some (none : Option ℚ)) ≠ some (some (5:ℚ)) :=
  ⟨by decide, by decide, by decide⟩

/-- C2 (amended): for a question identifier present in both the answer map
and the lookup table, when the answer text equals no key exactly, the
contributed sub-score is that of the first key in stored order whose
lowercase form is a substring of the lowercase answer text or of which the
lowercase answer text is a substring — provided that first matching key is
not the empty string (a falsy `best_match` makes the code skip the
question instead). -/
theorem c2_fuzzy_first_key (lookups : Lookups) (answers : AnswerMap) (uuid a : String)
    (table : List (String × ℚ)) (k : String) (v : ℚ)
    (ha : assocFind answers (PyKey.str uuid) = some (Json.str a))
    (ht : assocFind lookups uuid = some table)
    (hne : assocFind table a = none)
    (hf : table.find? (fun kv =>
        strHas (lowerStr a) (lowerStr kv.1) || strHas (lowerStr kv.1) (lowerStr a)) = some (k, v))
    (hk : k ≠ "") :
    resolveQuestion lookups answers uuid = some (some v) := by
  rw [resolveQuestion_str ha ht, hne]
  show (match fuzzyFind table a with
        | some bm => if bm.1 = "" then some none else some (some bm.2)
        | none => some none) = some (some v)
  rw [fuzzyFind_eq_findFirst, hf]
  simp [hk]

/-- C2 witness: for stored keys `["Low", "Low-Medium"]` and answer
`"medium low"`, the key `"Low"` is chosen and its sub-score `1`
contributed. -/
theorem c2_fuzzy_first_key_witness : resolveQuestion [("u", [("Low", 1), ("Low-Medium", 2)])]
    [(PyKey.str "u", Json.str "medium low")] "u" = some (some 1) :=
  c2_fuzzy_first_key [("u", [("Low", 1), ("Low-Medium", 2)])]
    [(PyKey.str "u", Json.str "medium low")] "u" "medium low"
    [("Low", 1), ("Low-Medium", 2)] "Low" 1 rfl rfl rfl (by decide) (by decide)

/-- C3: for a question identifier present in both the answer map and the
lookup table, an answer text exactly (case-sensitively) equal to a stored
key contributes that key's value, without consulting the fuzzy fallback. -/
theorem c3_exact_match_precedence (lookups : Lookups) (answers : AnswerMap) (uuid a : String)
    (table : List (String × ℚ)) (v : ℚ)
    (ha : assocFind answers (PyKey.str uuid) = some (Json.str a))
    (ht : assocFind lookups uuid = some table)
    (hexact : assocFind table a = some v) :
    resolveQuestion lookups answers uuid = some (some v) := by
  rw [resolveQuestion_str ha ht, hexact]

/-- C3 witness: with table `[("ab", 2), ("a", 7)]` and answer `"a"`, the
fuzzy fallback would pick `"ab"` (sub-score `2`) first, but the exact match
on `"a"` wins with sub-score `7`. -/
theorem c3_exact_match_precedence_witness : resolveQuestion [("u", [("ab", 2), ("a", 7)])]
    [(PyKey.str "u", Json.str "a")] "u" = some (some 7) :=
  c3_exact_match_precedence _ _ _ _ _ _ rfl rfl (by decide)

/-- C4: a payload with missing or malformed structure — one on which answer
extraction yields the empty answer map, e.g. the empty JSON object — makes
`calculate` return (not raise) a Pillar Score Set with all six pillar
scores `0` and overall `0`. -/
theorem c4_malformed_payload_zero (lookups : Lookups) (p : Json)
    (h : extract_answers p = []) :
    extract_answers (Json.obj []) = [] ∧ calculate lookups p = some ⟨0, 0, 0, 0, 0, 0, 0⟩ := by
  refine ⟨rfl, ?_⟩
  unfold calculate
  rw [h]
  simp [calculateScores, pillarScore, collectScores, resolveQuestion,
    pillar1, pillar2, pillar3, pillar4, pillar5, pillar6, assocFind, normalizeScore, round1, rhe]

/-- C4 witness: the theorem at the empty JSON object `{}` and an empty
lookup table. -/
theorem c4_malformed_payload_zero_witness : extract_answers (Json.obj []) = [] ∧
    calculate [] (Json.obj []) = some ⟨0, 0, 0, 0, 0, 0, 0⟩ :=
  c4_malformed_payload_zero [] (Json.obj []) rfl

/-- C5: a pillar none of whose contributing questions resolves to a
sub-score (each is absent from the answer map, absent from the lookup
table, or matches neither stage — i.e. resolves to a skip) has raw score
exactly `0`, and normalizing `0` yields exactly `0`. -/
theorem c5_unresolved_pillar_zero (lookups : Lookups) (answers : AnswerMap)
    (uuids : List String)
    (h : ∀ u ∈ uuids, resolveQuestion lookups answers u = some none) :
    pillarScore lookups answers uuids = some 0 ∧ normalizeScore 0 = 0 := by
  have hc : collectScores lookups answers uuids = some [] := by
    induction uuids with
    | nil => rfl
    | cons u rest ih =>
      unfold collectScores
      rw [h u (List.mem_cons_self _ _), ih (fun x hx => h x (List.mem_cons_of_mem _ hx))]
  constructor
  · unfold pillarScore
    rw [hc]
    rfl
  · simp [normalizeScore, round1, rhe]

/-- C5 witness: pillar 1 with an empty answer map and empty lookup table. -/
theorem c5_unresolved_pillar_zero_witness :
    pillarScore [] [] pillar1 = some 0 ∧ normalizeScore 0 = 0 :=
  c5_unresolved_pillar_zero [] [] pillar1 (fun _ _ => rfl)

/-- C6: whenever the PDF renderer raises — even after the chart renderer
succeeded — the orchestration result is `None` and the processing result of
`process_json` has success flag `false` and carries no document path
(`data = none`). -/
theorem c6_pdf_failure_propagates (chart : PillarScores → Except String String)
    (pdf : PillarScores → String → String → Except String String)
    (lookups : Lookups) (payload : Json) (ps : PillarScores)
    (hcalc : calculate lookups payload = some ps)
    (cp : String) (hchart : chart ps = Except.ok cp)
    (e : String) (hpdf : pdf ps cp (extract_user_name payload) = Except.error e) :
    process_health_scores chart pdf ps (extract_user_name payload) = none ∧
    (process_json chart pdf lookups (Except.ok payload)).success = false ∧
    (process_json chart pdf lookups (Except.ok payload)).data = none := by
  have h1 : process_health_scores chart pdf ps (extract_user_name payload) = none := by
    unfold process_health_scores
    rw [hchart]
    show (match pdf ps cp (extract_user_name payload) with
          | Except.error _ => none
          | Except.ok pdf_path =>
              some (OrchResult.mk cp pdf_path (extract_user_name payload) ps)) = none
    rw [hpdf]
  have h2 : process_json chart pdf lookups (Except.ok payload)
      = ⟨false, "Failed to process health scores", none⟩ := by
    rw [process_json_ok, hcalc]
    show (match process_health_scores chart pdf ps (extract_user_name payload) with
          | some result_data =>
              (⟨true, "JSON processed successfully", some result_data⟩ : ProcResult)
          | none => ⟨false, "Failed to process health scores", none⟩)
        = ⟨false, "Failed to process health scores", none⟩
    rw [h1]
  rw [h2]
  exact ⟨h1, rfl, rfl⟩

/-- C6 witness: a chart renderer that succeeds with `c.png` and a PDF
renderer that raises, on the empty payload. -/
theorem c6_pdf_failure_propagates_witness : process_health_scores (fun _ => Except.ok "c.png")
      (fun _ _ _ => Except.error "boom") ⟨0, 0, 0, 0, 0, 0, 0⟩
      (extract_user_name (Json.obj [])) = none ∧
    (process_json (fun _ => Except.ok "c.png") (fun _ _ _ => Except.error "boom") []
      (Except.ok (Json.obj []))).success = false ∧
    (process_json (fun _ => Except.ok "c.png") (fun _ _ _ => Except.error "boom") []
      (Except.ok (Json.obj []))).data = none :=
  c6_pdf_failure_propagates _ _ [] (Json.obj []) ⟨0, 0, 0, 0, 0, 0, 0⟩
    (by simp [calculate, extract_answers, pyGet, calculateScores, pillarScore, collectScores,
      resolveQuestion, pillar1, pillar2, pillar3, pillar4, pillar5, pillar6, assocFind,
      normalizeScore, round1, rhe])
    "c.png" rfl "boom" rfl

/-- C7: a call to the email sender with a document path that does not exist
on the file system returns a failure result without invoking the mail
provider (the result does not depend on the provider at all); and when the
webhook-and-email entry point does invoke the notifier (processing
succeeded with data, a nonempty recipient was supplied, and the PDF path is
nonempty and exists), the notifier's success flag is passed through
unchanged as the response's top-level success flag. -/
theorem c7_missing_pdf_and_flag_passthrough
    (api : Option String) (fs : String → Bool) (sg sgAlt : String → Except String Nat)
    (to_email subject body path : String) (hmiss : fs path = false)
    (chart : PillarScores → Except String String)
    (pdf : PillarScores → String → String → Except String String)
    (lookups : Lookups) (payload : Json) (toEmail date : String)
    (api2 : Option String) (fs2 : String → Bool) (sg2 : String → Except String Nat)
    (rd : OrchResult)
    (hsucc : (process_json chart pdf lookups (Except.ok payload)).success = true)
    (hdata : (process_json chart pdf lookups (Except.ok payload)).data = some rd)
    (hto : toEmail ≠ "")
    (hp1 : rd.pdf_report_path ≠ "")
    (hp2 : fs2 rd.pdf_report_path = true) :
    ((send_email_with_pdf api fs sg to_email subject body path).success = false ∧
      send_email_with_pdf api fs sg to_email subject body path
        = send_email_with_pdf api fs sgAlt to_email subject body path) ∧
    (process_webhook_and_email (Except.ok ()) api2 fs2 sg2 chart pdf lookups date payload
        (some toEmail)).success
      = (send_email_with_pdf api2 fs2 sg2 toEmail (emailSubject date)
          (emailBody rd.user_name) rd.pdf_report_path).success := by
  refine ⟨⟨?_, ?_⟩, ?_⟩
  · unfold send_email_with_pdf
    cases api <;> simp [hmiss]
  · unfold send_email_with_pdf
    cases api <;> simp [hmiss]
  · unfold process_webhook_and_email
    simp [hsucc, hdata, hto, hp1, hp2]

/-- C7 witness: a missing PDF (`fs` constantly false) with a healthy and a
failing provider, and a passthrough instance where processing produces
`r.pdf` and the notifier is invoked. -/
theorem c7_missing_pdf_and_flag_passthrough_witness :
    ((send_email_with_pdf (some "key") (fun _ => false) (fun _ => Except.ok 202) "a@b.c"
        "s" "b" "missing.pdf").success = false ∧
      send_email_with_pdf (some "key") (fun _ => false) (fun _ => Except.ok 202) "a@b.c"
          "s" "b" "missing.pdf"
        = send_email_with_pdf (some "key") (fun _ => false) (fun _ => Except.error "down")
            "a@b.c" "s" "b" "missing.pdf") ∧
    (process_webhook_and_email (Except.ok ()) (some "key") (fun _ => true)
        (fun _ => Except.ok 202) (fun _ => Except.ok "c.png") (fun _ _ _ => Except.ok "r.pdf")
        [] "2025-01-01" (Json.obj []) (some "a@b.c")).success
      = (send_email_with_pdf (some "key") (fun _ => true) (fun _ => Except.ok 202) "a@b.c"
          (emailSubject "2025-01-01")
          (emailBody (OrchResult.mk "c.png" "r.pdf" "User" ⟨0,0,0,0,0,0,0⟩).user_name)
          (OrchResult.mk "c.png" "r.pdf" "User" ⟨0,0,0,0,0,0,0⟩).pdf_report_path).success :=
  c7_missing_pdf_and_flag_passthrough (some "key") (fun _ => false) (fun _ => Except.ok 202)
    (fun _ => Except.error "down") "a@b.c" "s" "b" "missing.pdf" rfl
    (fun _ => Except.ok "c.png") (fun _ _ _ => Except.ok "r.pdf") [] (Json.obj [])
    "a@b.c" "2025-01-01" (some "key") (fun _ => true) (fun _ => Except.ok 202)
    (OrchResult.mk "c.png" "r.pdf" "User" ⟨0,0,0,0,0,0,0⟩)
    (by simp [process_json_ok, calculate, extract_answers, pyGet, calculateScores, pillarScore,
      collectScores, resolveQuestion, pillar1, pillar2, pillar3, pillar4, pillar5, pillar6,
      assocFind, normalizeScore, round1, rhe, process_health_scores, extract_user_name,
      userNameLoop, pyIter])
    (by simp [process_json_ok, calculate, extract_answers, pyGet, calculateScores, pillarScore,
      collectScores, resolveQuestion, pillar1, pillar2, pillar3, pillar4, pillar5, pillar6,
      assocFind, normalizeScore, round1, rhe, process_health_scores, extract_user_name,
      userNameLoop, pyIter])
    (by decide) (by decide) rfl

/-- C8: for the concrete payload answering the waist-circumference question
with `"Low risk"` and the systolic blood-pressure question with
`"Normal"`, and a lookup table mapping those answers to `4.0` and `5.0`,
`calculate` produces normalized pillar scores `80` and `100`, the other
four pillars `0` (and overall `30`). -/
theorem c8_concrete_example :
    calculate
      [("aa24a4d2-b1f2-408b-9d4a-4be80ec7508d", [("Low risk", 4)]),
       ("27181fef-736e-4bee-ad31-7d8e983d61b3", [("Normal", 5)])]
      (Json.obj [("form_response", Json.obj [("answers", Json.arr
        [Json.obj [("field", Json.obj [("ref", Json.str "aa24a4d2-b1f2-408b-9d4a-4be80ec7508d")]),
           ("type", Json.str "choice"),
           ("choice", Json.obj [("label", Json.str "Low risk")])],
         Json.obj [("field", Json.obj [("ref", Json.str "27181fef-736e-4bee-ad31-7d8e983d61b3")]),
           ("type", Json.str "choice"),
           ("choice", Json.obj [("label", Json.str "Normal")])]])])])
      = some ⟨80, 100, 0, 0, 0, 0, 30⟩ := by
  have hx : extract_answers (Json.obj [("form_response", Json.obj [("answers", Json.arr
        [Json.obj [("field", Json.obj [("ref", Json.str "aa24a4d2-b1f2-408b-9d4a-4be80ec7508d")]),
           ("type", Json.str "choice"),
           ("choice", Json.obj [("label", Json.str "Low risk")])],
         Json.obj [("field", Json.obj [("ref", Json.str "27181fef-736e-4bee-ad31-7d8e983d61b3")]),
           ("type", Json.str "choice"),
           ("choice", Json.obj [("label", Json.str "Normal")])]])])])
      = [(PyKey.str "aa24a4d2-b1f2-408b-9d4a-4be80ec7508d", Json.str "Low risk"),
         (PyKey.str "27181fef-736e-4bee-ad31-7d8e983d61b3", Json.str "Normal")] := rfl
  rw [calculate, hx]
  simp [calculateScores, pillarScore, collectScores, resolveQuestion,
    pillar1, pillar2, pillar3, pillar4, pillar5, pillar6, assocFind,
    normalizeScore, round1, rhe]
  norm_num

/-- C9 counterexample: the claim predicts the first stored key's sub-score
(`1`) for an empty-string answer, but when the empty string is itself a
stored (non-first) key the exact match wins and the code contributes `2`. -/
theorem c9_counterexample : resolveQuestion [("u", [("a", 1), ("", 2)])]
    [(PyKey.str "u", Json.str "")] "u" = some (some 2) ∧ (2 : ℚ) ≠ 1 :=
  ⟨by decide, by norm_num⟩

/-- C9 (amended): for a question identifier present in both the answer map
and a non-empty per-identifier mapping, an empty-string answer always
contributes a sub-score — the question is never skipped; and when the
empty string is not itself a stored key, the fuzzy fallback matches the
first stored key, whose sub-score is contributed. -/
theorem c9_empty_answer_amended (lookups : Lookups) (answers : AnswerMap) (uuid k0 : String)
    (v0 : ℚ) (rest : List (String × ℚ))
    (ha : assocFind answers (PyKey.str uuid) = some (Json.str ""))
    (ht : assocFind lookups uuid = some ((k0, v0) :: rest)) :
    (assocFind ((k0, v0) :: rest) "" = none →
      resolveQuestion lookups answers uuid = some (some v0)) ∧
    ∃ v, resolveQuestion lookups answers uuid = some (some v) := by
  have hlow : lowerStr "" = "" := rfl
  have hcond : (strHas (lowerStr k0) (lowerStr "") || strHas (lowerStr "") (lowerStr k0)) = true := by
    rw [hlow, strHas_empty]
    simp
  have hfz : fuzzyFind ((k0, v0) :: rest) "" = some (k0, v0) := by
    unfold fuzzyFind
    rw [if_pos hcond]
  have hfirst : assocFind ((k0, v0) :: rest) "" = none →
      resolveQuestion lookups answers uuid = some (some v0) := by
    intro hnone
    have hk0 : k0 ≠ "" := by
      intro he
      subst he
      simp [assocFind] at hnone
    rw [resolveQuestion_str ha ht, hnone]
    show (match fuzzyFind ((k0, v0) :: rest) "" with
          | some bm => if bm.1 = "" then some none else some (some bm.2)
          | none => some none) = some (some v0)
    rw [hfz]
    simp [hk0]
  refine ⟨hfirst, ?_⟩
  cases hx : assocFind ((k0, v0) :: rest) "" with
  | some w =>
    refine ⟨w, ?_⟩
    rw [resolveQuestion_str ha ht, hx]
  | none => exact ⟨v0, hfirst hx⟩

/-- C9 witness: the amended theorem at table `[("a", 3), ("b", 4)]`, where
the empty string is not a key, and the first key's sub-score `3` is
contributed. -/
theorem c9_empty_answer_amended_witness : (assocFind [("a", (3:ℚ)), ("b", 4)] "" = none →
      resolveQuestion [("u", [("a", 3), ("b", 4)])] [(PyKey.str "u", Json.str "")] "u"
        = some (some 3)) ∧
    ∃ v, resolveQuestion [("u", [("a", 3), ("b", 4)])] [(PyKey.str "u", Json.str "")] "u"
        = some (some v) :=
  c9_empty_answer_amended [("u", [("a", 3), ("b", 4)])] [(PyKey.str "u", Json.str "")]
    "u" "a" 3 [("b", 4)] rfl rfl

/-- C10: when saving the payload succeeds, the plain webhook entry point
returns top-level success `true` even when the embedded processing result
reports failure, which is visible only in the nested `processingResult`
field. -/
theorem c10_webhook_success_despite_failure (chart : PillarScores → Except String String)
    (pdf : PillarScores → String → String → Except String String)
    (lookups : Lookups) (filename : String) (payload : Json)
    (h : (process_json chart pdf lookups (Except.ok payload)).success = false) :
    (process_webhook (Except.ok ()) chart pdf lookups filename payload).success = true ∧
    (process_webhook (Except.ok ()) chart pdf lookups filename payload).processingResult
      = some (process_json chart pdf lookups (Except.ok payload)) ∧
    (process_json chart pdf lookups (Except.ok payload)).success = false :=
  ⟨rfl, rfl, h⟩

/-- C10 witness: a failing PDF renderer makes processing fail, yet the
webhook response's top-level flag is `true`. -/
theorem c10_webhook_success_despite_failure_witness :
    (process_webhook (Except.ok ()) (fun _ => Except.ok "c.png")
        (fun _ _ _ => Except.error "boom") [] "f.json" (Json.obj [])).success = true ∧
    (process_webhook (Except.ok ()) (fun _ => Except.ok "c.png")
        (fun _ _ _ => Except.error "boom") [] "f.json" (Json.obj [])).processingResult
      = some (process_json (fun _ => Except.ok "c.png") (fun _ _ _ => Except.error "boom") []
          (Except.ok (Json.obj []))) ∧
    (process_json (fun _ => Except.ok "c.png") (fun _ _ _ => Except.error "boom") []
        (Except.ok (Json.obj []))).success = false :=
  c10_webhook_success_despite_failure _ _ [] "f.json" (Json.obj [])
    (by simp [process_json_ok, calculate, extract_answers, pyGet, calculateScores, pillarScore,
      collectScores, resolveQuestion, pillar1, pillar2, pillar3, pillar4, pillar5, pillar6,
      assocFind, normalizeScore, round1, rhe, process_health_scores, extract_user_name,
      userNameLoop, pyIter])

end Lngvty
